import Mathlib

/-!
Verification of the mail-merge campaign tool in app.py.

The embedding translates the send / reconcile / log pipeline of app.py into
pure Lean functions:

* Python dicts produced by row.to_dict() become association lists (Record);
* Python str.format(**row) becomes a character scanner (scanGo / pyFormat)
  returning Except, where a KeyError on a missing field and a ValueError on a
  stray brace become explicit error values;
* the Gmail transport is an oracle argument: for sending, an Option SendReceipt
  per row (none = the send call raised an exception); for the metadata fetch of
  get_message_id_with_retry, a function from attempt number to
  Option (List Header) (none = the get call raised HttpError or any other
  exception, some hs = the call returned payload headers hs);
* time.sleep is not executed; instead the total seconds the code would sleep
  are accumulated in the returned values (RetryResult.waited, phase2_warmup);
* the pandas DataFrame loaded from the sheet becomes a header list plus a list
  of string rows (DataFrame), and the Sheets write becomes an oracle returning
  Except String Unit.
-/

/-- One row of the contact table as passed to str.format: the dict produced by
row.to_dict(), modelled as an association list from column name to value. -/
abbrev Record := List (String × String)

/-- Dictionary lookup: the value bound to the key, if any. Models
row_data[key] inside str.format as well as row.get(key). -/
def rowGet (row : Record) (key : String) : Option String :=
  (List.find? (fun p => p.1 == key) row).map (fun p => p.2)

/-- The exceptions Python str.format can raise on the inputs this app feeds
it: KeyError naming the absent field, or ValueError on a stray or
unterminated brace. Both are caught by the sending functions. -/
inductive RenderError where
  | missingField (name : String)
  | singleBrace
deriving DecidableEq

/-- Scanner state for the str.format model: in literal text, just after an
opening brace, just after a closing brace, or inside a replacement field with
the name characters read so far. -/
inductive ScanMode where
  | normal
  | sawL
  | sawR
  | field (acc : List Char)
deriving DecidableEq

/-- Model of Python str.format(**row) applied to template text, one character
at a time. An opening brace followed by another opening brace emits a literal
brace; otherwise it starts a replacement field read up to the next closing
brace, whose name is looked up in the row (a missing name is the KeyError
case). A closing brace must be doubled in literal text, else ValueError.
Substituted values are spliced into the output without being rescanned. -/
def scanGo (row : Record) : ScanMode → List Char → Except RenderError (List Char)
  | .normal, [] => .ok []
  | .sawL, [] => .error .singleBrace
  | .sawR, [] => .error .singleBrace
  | .field _, [] => .error .singleBrace
  | .normal, c :: rest =>
    if c = '{' then scanGo row .sawL rest
    else if c = '}' then scanGo row .sawR rest
    else (scanGo row .normal rest).map (fun u => c :: u)
  | .sawL, c :: rest =>
    if c = '{' then (scanGo row .normal rest).map (fun u => '{' :: u)
    else if c = '}' then
      match rowGet row "" with
      | none => .error (.missingField "")
      | some v => (scanGo row .normal rest).map (fun u => v.data ++ u)
    else scanGo row (.field [c]) rest
  | .sawR, c :: rest =>
    if c = '}' then (scanGo row .normal rest).map (fun u => '}' :: u)
    else .error .singleBrace
  | .field acc, c :: rest =>
    if c = '}' then
      match rowGet row (String.mk acc) with
      | none => .error (.missingField (String.mk acc))
      | some v => (scanGo row .normal rest).map (fun u => v.data ++ u)
    else scanGo row (.field (acc ++ [c])) rest

/-- template.format(**row_data), as called on the subject string and on the
HTML body template. -/
def pyFormat (row : Record) (template : List Char) : Except RenderError (List Char) :=
  scanGo row .normal template

instance {ε α : Type} [DecidableEq ε] [DecidableEq α] : DecidableEq (Except ε α) := fun a b =>
  match a, b with
  | .ok x, .ok y =>
    if h : x = y then .isTrue (congrArg Except.ok h)
    else .isFalse (fun hh => h (by cases hh; rfl))
  | .error x, .error y =>
    if h : x = y then .isTrue (congrArg Except.error h)
    else .isFalse (fun hh => h (by cases hh; rfl))
  | .ok _, .error _ => .isFalse (fun hh => Except.noConfusion hh)
  | .error _, .ok _ => .isFalse (fun hh => Except.noConfusion hh)

/-- A character list with no brace characters: text that str.format passes
through unchanged. -/
def braceFree (l : List Char) : Prop := '{' ∉ l ∧ '}' ∉ l

instance (l : List Char) : Decidable (braceFree l) := by
  unfold braceFree; infer_instance

/-- A template split into literal chunks and named replacement fields, the
shape of the mail templates this app renders. -/
inductive Seg where
  | lit (s : List Char)
  | field (name : String)
deriving DecidableEq

/-- The template text denoted by a segment list: literals verbatim, fields
written between braces. -/
def segsToTemplate : List Seg → List Char
  | [] => []
  | .lit s :: rest => s ++ segsToTemplate rest
  | .field n :: rest => '{' :: (n.data ++ '}' :: segsToTemplate rest)

/-- The intended rendering of a segment list over a row: literals verbatim,
each field replaced by exactly the value of its column; none when some
referenced column is absent. -/
def segsRender (row : Record) : List Seg → Option (List Char)
  | [] => some []
  | .lit s :: rest => (segsRender row rest).map (fun u => s ++ u)
  | .field n :: rest =>
    match rowGet row n with
    | none => none
    | some v => (segsRender row rest).map (fun u => v.data ++ u)

/-- A well-formed template segment in the sense used by the app: a literal
chunk with no braces, or a field with a non-empty alphabetic column name. -/
def GoodSeg : Seg → Prop
  | .lit s => braceFree s
  | .field n => n ≠ "" ∧ ∀ c ∈ n.data, c.isAlpha = true

instance (seg : Seg) : Decidable (GoodSeg seg) := by
  cases seg <;> unfold GoodSeg <;> infer_instance

/-- A well-formed template: every segment is well formed. -/
def GoodSegs (segs : List Seg) : Prop := ∀ seg ∈ segs, GoodSeg seg

instance (segs : List Seg) : Decidable (GoodSegs segs) := by
  unfold GoodSegs; infer_instance

/-- One header of a Gmail message payload, as returned by
users().messages().get(format=full). -/
structure Header where
  name : String
  value : String
deriving DecidableEq

/-- Python str.lower() over the characters of an ASCII string. -/
def pyLower (l : List Char) : List Char := l.map Char.toLower

/-- The Message-ID extraction of get_message_id_with_retry applied to one
fetch outcome: none models a raised exception (HttpError 404, other HTTP
error, or unexpected exception) as well as a response whose headers carry no
Message-ID or an empty one (Python then takes the falsy branch); some id
models the truthy message_id that the function returns. The header name
comparison is case-insensitive, as in name.lower() == message-id. -/
def truthyMessageId (resp : Option (List Header)) : Option String :=
  match resp with
  | none => none
  | some headers =>
    match headers.find? (fun h => pyLower h.name.data == "message-id".data) with
    | none => none
    | some h => if h.value = "" then none else some h.value

/-- Observable outcome of one call to get_message_id_with_retry: how many
fetch attempts were made, the total seconds slept between attempts, whether
the exhaustion warning was emitted, and the returned Message-ID string
(empty when exhausted). -/
structure RetryResult where
  fetch_calls : Nat
  waited : Nat
  warned : Bool
  result : String
deriving DecidableEq

/-- The for-attempt-in-range(max_retries) loop of get_message_id_with_retry,
iterated over the list of attempt numbers. On a truthy Message-ID the loop
returns it at once; on any failure it sleeps base_delay * 2 ^ attempt seconds
unless this was the last attempt, and falls through to the warning and the
empty-string return when the attempt list is exhausted. -/
def retryGo (fetchResp : Nat → Option (List Header)) (max_retries base_delay : Nat) :
    List Nat → RetryResult
  | [] => { fetch_calls := 0, waited := 0, warned := true, result := "" }
  | attempt :: rest =>
    match truthyMessageId (fetchResp attempt) with
    | some id => { fetch_calls := 1, waited := 0, warned := false, result := id }
    | none =>
      let wait := if attempt < max_retries - 1 then base_delay * 2 ^ attempt else 0
      let r := retryGo fetchResp max_retries base_delay rest
      { fetch_calls := r.fetch_calls + 1, waited := wait + r.waited,
        warned := r.warned, result := r.result }

/-- get_message_id_with_retry at its call site: the defaults max_retries = 5
and base_delay = 2 from the source, attempts numbered 0 to 4. -/
def get_message_id_with_retry (fetchResp : Nat → Option (List Header)) : RetryResult :=
  retryGo fetchResp 5 2 (List.range 5)

/-- The send receipt returned by the Gmail send call on success: the
API-internal message id and the thread id. -/
structure SendReceipt where
  id : String
  threadId : String
deriving DecidableEq

/-- Observable outcome of send_initial_email: sent with a receipt, or the
caught exception was a rendering error (KeyError or ValueError raised before
any send call), or the transport send call itself raised. -/
inductive SendOutcome where
  | sent (receipt : SendReceipt)
  | renderFailed (e : RenderError)
  | transportFailed
deriving DecidableEq

/-- send_initial_email: renders the HTML body then the subject with
str.format, builds the message and performs one transport send call. Any
exception is caught, an error is shown for the row, and None is returned
(here: a non-sent outcome). The second component counts transport send calls
made, which is 0 when rendering fails. The transport argument is none when
the send call raises. -/
def send_initial_email (transport : Option SendReceipt) (subject html_body_template : List Char)
    (row_data : Record) : SendOutcome × Nat :=
  match pyFormat row_data html_body_template with
  | .error e => (.renderFailed e, 0)
  | .ok _ =>
    match pyFormat row_data subject with
    | .error e => (.renderFailed e, 0)
    | .ok _ =>
      match transport with
      | some receipt => (.sent receipt, 1)
      | none => (.transportFailed, 1)

/-- The contact table: the header row and the data rows read from the
sheet. -/
structure DataFrame where
  columns : List String
  rows : List (List String)
deriving DecidableEq

/-- Value of one cell of a row under a column name: position of the column in
the header, then that position of the row; none models an absent cell. -/
def getCell (cols : List String) (row : List String) (c : String) : Option String :=
  (cols.findIdx? (fun h => h == c)).bind (fun i => row[i]?)

/-- The dict row.to_dict(): column names paired with the cells of the row. -/
def rowRecord (cols : List String) (row : List String) : Record :=
  cols.zip row

/-- One element of sent_emails_info: the row index, the provisional Gmail id
and thread id from the receipt, the rendered subject and the recipient. -/
structure SentItem where
  row_index : Nat
  temp_id : String
  thread_id : String
  subject : String
  email : String
deriving DecidableEq

/-- The Phase 1 loop from row index i on: rows with a missing or empty email
cell are skipped; otherwise send_initial_email runs, a successful send
appends a SentItem with the re-rendered subject, and any failure only shows
an error and moves on to the next row. -/
def phase1Aux (transport : Nat → Option SendReceipt) (subject html : List Char) :
    Nat → List Record → List SentItem
  | _, [] => []
  | i, row :: rest =>
    match rowGet row "email" with
    | none => phase1Aux transport subject html (i + 1) rest
    | some email =>
      if email = "" then phase1Aux transport subject html (i + 1) rest
      else
        match (send_initial_email (transport i) subject html row).1 with
        | .sent receipt =>
          { row_index := i, temp_id := receipt.id, thread_id := receipt.threadId,
            subject := String.mk ((pyFormat row subject).toOption.getD []),
            email := email } :: phase1Aux transport subject html (i + 1) rest
        | _ => phase1Aux transport subject html (i + 1) rest

/-- Phase 1 over the whole DataFrame, rows converted to dicts as by
iterrows and to_dict. -/
def phase1 (transport : Nat → Option SendReceipt) (subject html : List Char)
    (df : DataFrame) : List SentItem :=
  phase1Aux transport subject html 0 (df.rows.map (rowRecord df.columns))

/-- One log entry of update_log, field names as in the source dict. -/
structure LogEntry where
  Timestamp : String
  Status : String
  Subject : String
  ThreadID : String
  MessageID : String
deriving DecidableEq

/-- The single batch-level warm-up sleep of Phase 2: 10 seconds before the
first fetch when at least one email was sent, independent of the number of
sent rows. -/
def phase2_warmup (sent_emails_info : List SentItem) : Nat :=
  if sent_emails_info.isEmpty then 0 else 10

/-- The Phase 2 loop: one retried Message-ID fetch per sent item and one log
entry per sent item keyed by its row index, with Status Sent, the rendered
subject, the thread id of the receipt and the fetched Message-ID (empty when
retries were exhausted). fetchFor gives the fetch outcomes per provisional
Gmail message id and attempt number. -/
def phase2_update_log (now : String) (fetchFor : String → Nat → Option (List Header))
    (sent_emails_info : List SentItem) : List (Nat × LogEntry) :=
  sent_emails_info.map (fun s =>
    (s.row_index,
      { Timestamp := now, Status := "Sent", Subject := s.subject,
        ThreadID := s.thread_id,
        MessageID := (get_message_id_with_retry (fetchFor s.temp_id)).result }))

/-- The five log columns, in source order. -/
def log_headers : List String :=
  ["Timestamp", "Status", "Subject", "Thread ID", "Message ID"]

/-- The pandas assignment df[h] = empty string for a new column: the column
is appended at the end of the header and every row gets an empty cell. -/
def addColumn (df : DataFrame) (h : String) : DataFrame :=
  { columns := df.columns ++ [h], rows := df.rows.map (fun r => r ++ [""]) }

/-- The Phase 3 loop adding each missing log column. -/
def ensureLogColumns (df : DataFrame) : DataFrame :=
  log_headers.foldl (fun d h => if h ∈ d.columns then d else addColumn d h) df

/-- df.loc[i, c] = v for an existing column c and an in-range index i:
replace the cell at the position of the column in row i. -/
def setDfCell (df : DataFrame) (i : Nat) (c v : String) : DataFrame :=
  { df with rows :=
      match df.columns.findIdx? (fun h => h == c) with
      | some j => df.rows.set i ((df.rows.getD i []).set j v)
      | none => df.rows }

/-- The five cell writes of one log entry, in dict insertion order. -/
def entryPairs (e : LogEntry) : List (String × String) :=
  [("Timestamp", e.Timestamp), ("Status", e.Status), ("Subject", e.Subject),
   ("Thread ID", e.ThreadID), ("Message ID", e.MessageID)]

/-- Writing one log entry into its row. -/
def applyEntry (df : DataFrame) (i : Nat) (e : LogEntry) : DataFrame :=
  (entryPairs e).foldl (fun d p => setDfCell d i p.1 p.2) df

/-- The double loop writing update_log into the DataFrame in memory. -/
def applyUpdateLog (df : DataFrame) (update_log : List (Nat × LogEntry)) : DataFrame :=
  update_log.foldl (fun d p => applyEntry d p.1 p.2) df

/-- Phase 3: ensure the log columns, write the log entries into the
DataFrame in memory, then clear the sheet range and write header plus rows
back in one batch through the persist oracle; the oracle outcome (ok, or the
exception text that the code catches and reports) is returned next to the
merged in-memory table. -/
def phase3 (df : DataFrame) (update_log : List (Nat × LogEntry))
    (persist : List (List String) → Except String Unit) : DataFrame × Except String Unit :=
  let merged := applyUpdateLog (ensureLogColumns df) update_log
  (merged, persist (merged.columns :: merged.rows))

/-- The reply message content assembled by send_reply_email; toAddr is the
To header. Slots the code fills from possibly-missing cells are Options. -/
structure ReplyMessage where
  toAddr : Option String
  subject : String
  inReplyTo : Option String
  references : Option String
  threadId : Option String
  body : List Char
deriving DecidableEq

/-- send_reply_email: renders the body, prefixes the stored subject with Re:
unless it already starts with re: case-insensitively, sets In-Reply-To and
References to the original Message-ID value, and sends on the given thread
id. Any exception is caught and None is returned: a failed body rendering, a
missing subject cell (lower() raises on it), or a transport failure
(transport_ok = false). -/
def send_reply_email (transport_ok : Bool)
    (to_email subject thread_id original_msg_id : Option String)
    (html_body_template : List Char) (row_data : Record) : Option ReplyMessage :=
  match pyFormat row_data html_body_template with
  | .error _ => none
  | .ok final_html_body =>
    match subject with
    | none => none
    | some subj =>
      let final_subject :=
        if !((pyLower subj.data).take 3 == "re:".data) then "Re: " ++ subj else subj
      if transport_ok then
        some { toAddr := to_email, subject := final_subject, inReplyTo := original_msg_id,
               references := original_msg_id, threadId := thread_id,
               body := final_html_body }
      else none

/-- The boolean mask selection of the reminder tab: the rows, with their
original indices, whose Message ID cell is present and non-empty, in
original order. -/
def reply_df (df : DataFrame) : List (Nat × List String) :=
  df.rows.enum.filter (fun p =>
    match getCell df.columns p.2 "Message ID" with
    | some v => v != ""
    | none => false)

/-- The reminder loop over the selected rows: one send_reply_email call per
selected row, fed from the row cells; per-row transport outcomes (which the
code ignores) are given by the oracle sendOk keyed by row index. -/
def reminder_replies (df : DataFrame) (reminder_template : List Char) (sendOk : Nat → Bool) :
    List (Nat × Option ReplyMessage) :=
  (reply_df df).map (fun p =>
    (p.1, send_reply_email (sendOk p.1)
      (getCell df.columns p.2 "email") (getCell df.columns p.2 "Subject")
      (getCell df.columns p.2 "Thread ID") (getCell df.columns p.2 "Message ID")
      reminder_template (rowRecord df.columns p.2)))

/-- The whole reminder campaign block of tab2 as a transformer of the
in-memory DataFrame and of the external store (of any type): it checks that
the two threading columns exist, selects the reply rows and sends the
replies. The block reads the table and sends mail but contains no assignment
to the DataFrame and no Sheets write call, so both come back as they
were. -/
def reminderRun {σ : Type} (df : DataFrame) (store : σ) (reminder_template : List Char)
    (sendOk : Nat → Bool) : DataFrame × σ × List (Nat × Option ReplyMessage) :=
  if "Message ID" ∈ df.columns ∧ "Thread ID" ∈ df.columns then
    (df, store, reminder_replies df reminder_template sendOk)
  else (df, store, [])

/-- Fetch oracle used by the C1 witness: the first attempt returns a
response with no Message-ID header, the second returns one. -/
def fetchRespW : Nat → Option (List Header) := fun j =>
  if j = 0 then some [] else some [{ name := "Message-ID", value := "<x@y>" }]

/-- Sent item used by the C2 witness. -/
def itemW : SentItem :=
  { row_index := 0, temp_id := "t1", thread_id := "th1", subject := "S", email := "a@b.c" }

/-- DataFrame for the C3 counterexample: one contact row, no log columns. -/
def dfC3 : DataFrame := { columns := ["email"], rows := [["a@b.c"]] }

/-- Table used by the C5 witness: the second and fourth rows carry a
Message ID. -/
def dfC4 : DataFrame :=
  { columns := ["email", "Subject", "Thread ID", "Message ID"],
    rows := [["a", "s1", "t1", ""], ["b", "s2", "t2", "<abc@x>"],
             ["c", "s3", "t3", ""], ["d", "s4", "t4", "<def@y>"]] }

lemma retryGo_fetch_calls_le (fetchResp : Nat → Option (List Header)) (M b : Nat)
    (l : List Nat) : (retryGo fetchResp M b l).fetch_calls ≤ l.length := by
  induction l with
  | nil => simp [retryGo]
  | cons a t ih =>
    cases h : truthyMessageId (fetchResp a) with
    | some id => simp [retryGo, h]
    | none =>
      simp only [retryGo, h, List.length_cons]
      omega

/-- Claim C1: get_message_id_with_retry makes at most 5 fetch attempts; after
each failed attempt except the last it sleeps base_delay * 2 ^ attempt
seconds with base_delay = 2, so a run that first succeeds on attempt k has
waited exactly (hence at least) the sum of 2 * 2 ^ j for j below k - 1
before succeeding; and the Phase 2 batch is preceded by one fixed 10-second
warm-up sleep (within the stated 5 to 10 seconds), not a per-row one. -/
theorem retry_backoff_policy (fetchResp : Nat → Option (List Header)) (k : Nat) (id : String)
    (hk1 : 1 ≤ k) (hk5 : k ≤ 5)
    (hfail : ∀ j, j < k - 1 → truthyMessageId (fetchResp j) = none)
    (hsucc : truthyMessageId (fetchResp (k - 1)) = some id) :
    (∀ g : Nat → Option (List Header), (get_message_id_with_retry g).fetch_calls ≤ 5) ∧
    (get_message_id_with_retry fetchResp).fetch_calls = k ∧
    (get_message_id_with_retry fetchResp).result = id ∧
    (get_message_id_with_retry fetchResp).waited = ∑ j ∈ Finset.range (k - 1), 2 * 2 ^ j ∧
    (∀ sent : List SentItem, sent ≠ [] →
      phase2_warmup sent = 10 ∧ 5 ≤ phase2_warmup sent ∧ phase2_warmup sent ≤ 10) := by
  have hcalls : ∀ g : Nat → Option (List Header),
      (get_message_id_with_retry g).fetch_calls ≤ 5 := by
    intro g
    simpa using retryGo_fetch_calls_le g 5 2 (List.range 5)
  have hwarm : ∀ sent : List SentItem, sent ≠ [] →
      phase2_warmup sent = 10 ∧ 5 ≤ phase2_warmup sent ∧ phase2_warmup sent ≤ 10 := by
    intro sent hne
    cases sent with
    | nil => exact absurd rfl hne
    | cons a t => exact ⟨rfl, by norm_num [phase2_warmup], by norm_num [phase2_warmup]⟩
  have hrange : List.range 5 = [0, 1, 2, 3, 4] := rfl
  have hmain : (get_message_id_with_retry fetchResp).fetch_calls = k ∧
      (get_message_id_with_retry fetchResp).result = id ∧
      (get_message_id_with_retry fetchResp).waited = ∑ j ∈ Finset.range (k - 1), 2 * 2 ^ j := by
    rw [get_message_id_with_retry, hrange]
    interval_cases k
    · simp only [show (1 : Nat) - 1 = 0 from rfl] at hsucc
      refine ⟨?_, ?_, ?_⟩ <;> simp [retryGo, hsucc]
    · simp only [show (2 : Nat) - 1 = 1 from rfl] at hsucc ⊢
      have h0 := hfail 0 (by norm_num)
      refine ⟨?_, ?_, ?_⟩ <;> simp [retryGo, h0, hsucc]
    · simp only [show (3 : Nat) - 1 = 2 from rfl] at hsucc ⊢
      have h0 := hfail 0 (by norm_num)
      have h1 := hfail 1 (by norm_num)
      refine ⟨?_, ?_, ?_⟩ <;> simp [retryGo, h0, h1, hsucc]
      decide
    · simp only [show (4 : Nat) - 1 = 3 from rfl] at hsucc ⊢
      have h0 := hfail 0 (by norm_num)
      have h1 := hfail 1 (by norm_num)
      have h2 := hfail 2 (by norm_num)
      refine ⟨?_, ?_, ?_⟩ <;> simp [retryGo, h0, h1, h2, hsucc]
      decide
    · simp only [show (5 : Nat) - 1 = 4 from rfl] at hsucc ⊢
      have h0 := hfail 0 (by norm_num)
      have h1 := hfail 1 (by norm_num)
      have h2 := hfail 2 (by norm_num)
      have h3 := hfail 3 (by norm_num)
      refine ⟨?_, ?_, ?_⟩ <;> simp [retryGo, h0, h1, h2, h3, hsucc]
      decide
  exact ⟨hcalls, hmain.1, hmain.2.1, hmain.2.2, hwarm⟩

theorem retry_backoff_policy_witness :
    ((1 : Nat) ≤ 2 ∧ (2 : Nat) ≤ 5 ∧
      (∀ j, j < 2 - 1 → truthyMessageId (fetchRespW j) = none) ∧
      truthyMessageId (fetchRespW (2 - 1)) = some "<x@y>") ∧
    ((∀ g : Nat → Option (List Header), (get_message_id_with_retry g).fetch_calls ≤ 5) ∧
      (get_message_id_with_retry fetchRespW).fetch_calls = 2 ∧
      (get_message_id_with_retry fetchRespW).result = "<x@y>" ∧
      (get_message_id_with_retry fetchRespW).waited = ∑ j ∈ Finset.range (2 - 1), 2 * 2 ^ j ∧
      (∀ sent : List SentItem, sent ≠ [] →
        phase2_warmup sent = 10 ∧ 5 ≤ phase2_warmup sent ∧ phase2_warmup sent ≤ 10)) :=
  ⟨⟨by norm_num, by norm_num, by decide, by decide⟩,
    retry_backoff_policy fetchRespW 2 "<x@y>" (by norm_num) (by norm_num)
      (by decide) (by decide)⟩

/-- Claim C2: when all 5 attempts fail to produce a Message-ID,
get_message_id_with_retry returns the empty string and emits the warning,
and the log entry of the row is still written with Status Sent and an empty
Message ID. -/
theorem retry_exhausted_logged_sent (fetchFor : String → Nat → Option (List Header))
    (now : String) (item : SentItem) (sent : List SentItem)
    (hmem : item ∈ sent)
    (hfail : ∀ j, j < 5 → truthyMessageId (fetchFor item.temp_id j) = none) :
    (get_message_id_with_retry (fetchFor item.temp_id)).result = "" ∧
    (get_message_id_with_retry (fetchFor item.temp_id)).warned = true ∧
    ((item.row_index,
      { Timestamp := now, Status := "Sent", Subject := item.subject,
        ThreadID := item.thread_id, MessageID := "" }) : Nat × LogEntry) ∈
      phase2_update_log now fetchFor sent := by
  have h0 := hfail 0 (by norm_num)
  have h1 := hfail 1 (by norm_num)
  have h2 := hfail 2 (by norm_num)
  have h3 := hfail 3 (by norm_num)
  have h4 := hfail 4 (by norm_num)
  have hres : get_message_id_with_retry (fetchFor item.temp_id) =
      { fetch_calls := 5, waited := 30, warned := true, result := "" } := by
    rw [get_message_id_with_retry, show List.range 5 = [0, 1, 2, 3, 4] from rfl]
    simp [retryGo, h0, h1, h2, h3, h4]
  refine ⟨by rw [hres], by rw [hres], ?_⟩
  unfold phase2_update_log
  exact List.mem_map.mpr ⟨item, hmem, by rw [hres]⟩

lemma phase1Aux_row_index_ge (transport : Nat → Option SendReceipt)
    (subject html : List Char) (rows : List Record) (i : Nat) :
    ∀ s ∈ phase1Aux transport subject html i rows, i ≤ s.row_index := by
  induction rows generalizing i with
  | nil => simp [phase1Aux]
  | cons row rest ih =>
    intro s hs
    cases hg : rowGet row "email" with
    | none =>
      simp only [phase1Aux, hg] at hs
      have := ih (i + 1) s hs
      omega
    | some email =>
      simp only [phase1Aux, hg] at hs
      by_cases he : email = ""
      · rw [if_pos he] at hs
        have := ih (i + 1) s hs
        omega
      · rw [if_neg he] at hs
        cases ho : (send_initial_email (transport i) subject html row).1 with
        | sent receipt =>
          rw [ho] at hs
          rcases List.mem_cons.mp hs with h | h
          · subst h; simp
          · have := ih (i + 1) s h
            omega
        | renderFailed e =>
          rw [ho] at hs
          have := ih (i + 1) s hs
          omega
        | transportFailed =>
          rw [ho] at hs
          have := ih (i + 1) s hs
          omega

/-- Claim C3 (amended): when the transport send call fails for a row, the
loop reports it for that row only and continues with the remaining rows
exactly as if the row were absent, so one row never aborts the batch; but
the failed row receives no log entry at all (its row index appears in no
sent item), and every log entry ever written carries Status Sent: no entry
with Status Failed is ever recorded. -/
theorem send_failure_skips_row (transport : Nat → Option SendReceipt)
    (subject html : List Char) (i : Nat) (row : Record) (rest : List Record)
    (hfail : transport i = none) :
    phase1Aux transport subject html i (row :: rest)
      = phase1Aux transport subject html (i + 1) rest ∧
    (∀ s ∈ phase1Aux transport subject html i (row :: rest), s.row_index ≠ i) ∧
    (∀ (now : String) (fetchFor : String → Nat → Option (List Header))
       (sent : List SentItem) (e : Nat × LogEntry),
       e ∈ phase2_update_log now fetchFor sent → e.2.Status = "Sent") := by
  have hskip : phase1Aux transport subject html i (row :: rest)
      = phase1Aux transport subject html (i + 1) rest := by
    cases hg : rowGet row "email" with
    | none => simp [phase1Aux, hg]
    | some email =>
      by_cases he : email = ""
      · simp [phase1Aux, hg, he]
      · cases hb : pyFormat row html with
        | error e => simp [phase1Aux, hg, he, send_initial_email, hb]
        | ok b =>
          cases hsj : pyFormat row subject with
          | error e => simp [phase1Aux, hg, he, send_initial_email, hb, hsj]
          | ok sj => simp [phase1Aux, hg, he, send_initial_email, hb, hsj, hfail]
  refine ⟨hskip, ?_, ?_⟩
  · intro s hs
    rw [hskip] at hs
    have := phase1Aux_row_index_ge transport subject html rest (i + 1) s hs
    omega
  · intro now fetchFor sent e he
    unfold phase2_update_log at he
    rcases List.mem_map.mp he with ⟨s, _, hfs⟩
    rw [← hfs]

theorem send_failure_skips_row_witness :
    ((fun _ : Nat => (none : Option SendReceipt)) 0 = none) ∧
    (phase1Aux (fun _ => none) "S".data "B".data 0 [[("email", "a@b.c")]]
        = phase1Aux (fun _ => none) "S".data "B".data 1 [] ∧
      (∀ s ∈ phase1Aux (fun _ => none) "S".data "B".data 0 [[("email", "a@b.c")]],
        s.row_index ≠ 0) ∧
      (∀ (now : String) (fetchFor : String → Nat → Option (List Header))
         (sent : List SentItem) (e : Nat × LogEntry),
         e ∈ phase2_update_log now fetchFor sent → e.2.Status = "Sent")) :=
  ⟨rfl, send_failure_skips_row (fun _ => none) "S".data "B".data 0
    [("email", "a@b.c")] [] rfl⟩

/-- Claim C3 counterexample: with a single row whose transport send fails,
the run produces no sent item and no log entry for the row, and after Phase
3 the Status cell of that row is the empty string, not Failed: the claim
that the failed row logs Status=Failed is false on the code. -/
theorem send_failure_status_cx :
    phase1 (fun _ => none) "S".data "B".data dfC3 = [] ∧
    phase2_update_log "ts" (fun _ _ => none)
      (phase1 (fun _ => none) "S".data "B".data dfC3) = [] ∧
    getCell (phase3 dfC3 (phase2_update_log "ts" (fun _ _ => none)
        (phase1 (fun _ => none) "S".data "B".data dfC3))
        (fun _ => Except.ok ())).1.columns
      ((phase3 dfC3 (phase2_update_log "ts" (fun _ _ => none)
        (phase1 (fun _ => none) "S".data "B".data dfC3))
        (fun _ => Except.ok ())).1.rows.getD 0 []) "Status" = some "" ∧
    some "" ≠ some ("Failed" : String) := by
  refine ⟨?_, ?_, ?_, ?_⟩ <;> decide

lemma addColumn_columns (d : DataFrame) (h : String) :
    (addColumn d h).columns = d.columns ++ [h] := rfl

lemma addColumn_rows_length (d : DataFrame) (h : String) :
    (addColumn d h).rows.length = d.rows.length := by
  simp [addColumn]

lemma ensure_fold_columns (hs : List String) (d : DataFrame) (hnd : hs.Nodup) :
    (hs.foldl (fun d h => if h ∈ d.columns then d else addColumn d h) d).columns
      = d.columns ++ hs.filter (fun h => decide (h ∉ d.columns)) := by
  induction hs generalizing d with
  | nil => simp
  | cons h t ih =>
    rcases List.nodup_cons.mp hnd with ⟨hht, hnt⟩
    by_cases hmem : h ∈ d.columns
    · rw [List.foldl_cons, if_pos hmem, ih d hnt]
      congr 1
      simp [List.filter_cons, hmem]
    · rw [List.foldl_cons, if_neg hmem, ih (addColumn d h) hnt, addColumn_columns]
      have hfil : t.filter (fun x => decide (x ∉ d.columns ++ [h]))
          = t.filter (fun x => decide (x ∉ d.columns)) := by
        apply List.filter_congr
        intro x hx
        have hxh : x ≠ h := fun hh => hht (hh ▸ hx)
        simp [List.mem_append, hxh]
      rw [hfil]
      simp [List.filter_cons, hmem, List.append_assoc]

lemma ensure_fold_rows_length (hs : List String) (d : DataFrame) :
    (hs.foldl (fun d h => if h ∈ d.columns then d else addColumn d h) d).rows.length
      = d.rows.length := by
  induction hs generalizing d with
  | nil => rfl
  | cons h t ih =>
    rw [List.foldl_cons]
    by_cases hmem : h ∈ d.columns
    · rw [if_pos hmem]
      exact ih d
    · rw [if_neg hmem, ih (addColumn d h), addColumn_rows_length]

lemma setDfCell_columns (df : DataFrame) (i : Nat) (c v : String) :
    (setDfCell df i c v).columns = df.columns := by
  cases hf : df.columns.findIdx? (fun h => h == c) with
  | none => simp [setDfCell, hf]
  | some j => simp [setDfCell, hf]

lemma setDfCell_rows_length (df : DataFrame) (i : Nat) (c v : String) :
    (setDfCell df i c v).rows.length = df.rows.length := by
  cases hf : df.columns.findIdx? (fun h => h == c) with
  | none => simp [setDfCell, hf]
  | some j => simp [setDfCell, hf]

lemma applyEntry_columns (df : DataFrame) (i : Nat) (e : LogEntry) :
    (applyEntry df i e).columns = df.columns := by
  simp [applyEntry, entryPairs, setDfCell_columns]

lemma applyEntry_rows_length (df : DataFrame) (i : Nat) (e : LogEntry) :
    (applyEntry df i e).rows.length = df.rows.length := by
  simp [applyEntry, entryPairs, setDfCell_rows_length]

lemma applyUpdateLog_columns (update_log : List (Nat × LogEntry)) (df : DataFrame) :
    (applyUpdateLog df update_log).columns = df.columns := by
  induction update_log generalizing df with
  | nil => rfl
  | cons p t ih =>
    rw [show applyUpdateLog df (p :: t) = applyUpdateLog (applyEntry df p.1 p.2) t from rfl,
      ih, applyEntry_columns]

lemma applyUpdateLog_rows_length (update_log : List (Nat × LogEntry)) (df : DataFrame) :
    (applyUpdateLog df update_log).rows.length = df.rows.length := by
  induction update_log generalizing df with
  | nil => rfl
  | cons p t ih =>
    rw [show applyUpdateLog df (p :: t) = applyUpdateLog (applyEntry df p.1 p.2) t from rfl,
      ih, applyEntry_rows_length]

/-- Claim C9: Phase 3 preserves the existing column order, appends exactly
the missing log columns at the end of the header (in log_headers order,
never inserted among existing columns), and never changes the row count. -/
theorem log_columns_appended_row_count (df : DataFrame) (update_log : List (Nat × LogEntry))
    (persist : List (List String) → Except String Unit) :
    (phase3 df update_log persist).1.columns
      = df.columns ++ log_headers.filter (fun h => decide (h ∉ df.columns)) ∧
    (phase3 df update_log persist).1.rows.length = df.rows.length := by
  constructor
  · show (applyUpdateLog (ensureLogColumns df) update_log).columns = _
    rw [applyUpdateLog_columns]
    exact ensure_fold_columns log_headers df (by decide)
  · show (applyUpdateLog (ensureLogColumns df) update_log).rows.length = _
    rw [applyUpdateLog_rows_length]
    exact ensure_fold_rows_length log_headers df

/-- Claim C8: the merged in-memory table produced by Phase 3 does not depend
on the behaviour of the persist call, so a store failure loses nothing: the
table with all log columns and reconciled entries applied is returned
unchanged, and the persist outcome (in particular a reported error) is
exactly the store call on that merged table, available for an independent
retry. -/
theorem persist_failure_preserves_memory (df : DataFrame)
    (update_log : List (Nat × LogEntry)) (p q : List (List String) → Except String Unit) :
    (phase3 df update_log p).1 = (phase3 df update_log q).1 ∧
    (phase3 df update_log p).1 = applyUpdateLog (ensureLogColumns df) update_log ∧
    (phase3 df update_log p).2
      = p ((phase3 df update_log p).1.columns :: (phase3 df update_log p).1.rows) :=
  ⟨rfl, rfl, rfl⟩

/-- Claim C10: the reminder pass never writes to the contact table or to the
external store: whatever the table, the store and the per-row send outcomes,
the DataFrame and the store after a reminder campaign run are exactly what
they were before it. -/
theorem reminder_pass_writes_nothing {σ : Type} (df : DataFrame) (store : σ)
    (reminder_template : List Char) (sendOk : Nat → Bool) :
    (reminderRun df store reminder_template sendOk).1 = df ∧
    (reminderRun df store reminder_template sendOk).2.1 = store := by
  unfold reminderRun
  split <;> exact ⟨rfl, rfl⟩

/-- Claim C4: the reply pass selects exactly the rows of the table whose
Message ID cell is present and non-empty, keeping the original row order
(the selection is a subsequence of the enumerated rows), and rows without
such a cell get no reply: the reminder loop replies exactly to the selected
row indices. -/
theorem reply_selection_nonempty_message_id (df : DataFrame) :
    List.Sublist (reply_df df) df.rows.enum ∧
    (∀ i r, (i, r) ∈ reply_df df ↔ ((i, r) ∈ df.rows.enum ∧
      ∃ v, getCell df.columns r "Message ID" = some v ∧ v ≠ "")) ∧
    (∀ (σ : Type) (store : σ) (tpl : List Char) (sendOk : Nat → Bool),
      ((reminderRun df store tpl sendOk).2.2).map Prod.fst
        = if "Message ID" ∈ df.columns ∧ "Thread ID" ∈ df.columns
          then (reply_df df).map Prod.fst else []) := by
  refine ⟨List.filter_sublist _, ?_, ?_⟩
  · intro i r
    unfold reply_df
    rw [List.mem_filter]
    have hiff : ((match getCell df.columns r "Message ID" with
        | some v => v != ""
        | none => false) = true)
        ↔ (∃ v, getCell df.columns r "Message ID" = some v ∧ v ≠ "") := by
      cases hg : getCell df.columns r "Message ID" with
      | none => simp
      | some v => simp
    exact and_congr_right (fun _ => hiff)
  · intro σ store tpl sendOk
    unfold reminderRun
    split
    · simp [reminder_replies]
    · simp

/-- Claim C5: every selected reply row whose send succeeds gets a threaded
reply whose transport thread id is the row's Thread ID cell, whose
In-Reply-To and References headers are both the row's Message ID value, and
whose subject is the stored subject prefixed with Re: unless it already
starts with re: case-insensitively, in which case it is unchanged. -/
theorem reply_threading_headers (df : DataFrame) (tpl : List Char) (sendOk : Nat → Bool)
    (i : Nat) (r : List String) (subj : String) (body : List Char)
    (hmem : (i, r) ∈ reply_df df)
    (hsubj : getCell df.columns r "Subject" = some subj)
    (hrender : pyFormat (rowRecord df.columns r) tpl = .ok body)
    (hsend : sendOk i = true) :
    (i, some { toAddr := getCell df.columns r "email",
               subject := if (pyLower subj.data).take 3 == "re:".data
                          then subj else "Re: " ++ subj,
               inReplyTo := getCell df.columns r "Message ID",
               references := getCell df.columns r "Message ID",
               threadId := getCell df.columns r "Thread ID",
               body := body }) ∈ reminder_replies df tpl sendOk := by
  unfold reminder_replies
  apply List.mem_map.mpr
  refine ⟨(i, r), hmem, ?_⟩
  simp only [send_reply_email, hrender, hsubj, hsend]
  cases hb : (pyLower subj.data).take 3 == "re:".data <;> simp [hb]

theorem reply_threading_headers_witness :
    ((1, ["b", "s2", "t2", "<abc@x>"]) ∈ reply_df dfC4 ∧
      getCell dfC4.columns ["b", "s2", "t2", "<abc@x>"] "Subject" = some "s2" ∧
      pyFormat (rowRecord dfC4.columns ["b", "s2", "t2", "<abc@x>"]) "Hi".data
        = .ok "Hi".data ∧
      (fun _ : Nat => true) 1 = true) ∧
    (1, some { toAddr := getCell dfC4.columns ["b", "s2", "t2", "<abc@x>"] "email",
               subject := if (pyLower "s2".data).take 3 == "re:".data
                          then "s2" else "Re: " ++ "s2",
               inReplyTo := getCell dfC4.columns ["b", "s2", "t2", "<abc@x>"] "Message ID",
               references := getCell dfC4.columns ["b", "s2", "t2", "<abc@x>"] "Message ID",
               threadId := getCell dfC4.columns ["b", "s2", "t2", "<abc@x>"] "Thread ID",
               body := "Hi".data })
      ∈ reminder_replies dfC4 "Hi".data (fun _ => true) :=
  ⟨⟨by decide, by decide, by decide, rfl⟩,
    reply_threading_headers dfC4 "Hi".data (fun _ => true) 1 ["b", "s2", "t2", "<abc@x>"]
      "s2" "Hi".data (by decide) (by decide) (by decide) rfl⟩

lemma string_mk_data (n : String) : String.mk n.data = n := by
  cases n
  rfl

lemma braceFree_cons (c : Char) (rest : List Char) (h : braceFree (c :: rest)) :
    c ≠ '{' ∧ c ≠ '}' ∧ braceFree rest := by
  obtain ⟨h1, h2⟩ := h
  simp only [List.mem_cons, not_or] at h1 h2
  exact ⟨fun hh => h1.1 hh.symm, fun hh => h2.1 hh.symm, h1.2, h2.2⟩

lemma braceFree_append (a b : List Char) (ha : braceFree a) (hb : braceFree b) :
    braceFree (a ++ b) := by
  unfold braceFree at *
  simp only [List.mem_append, not_or]
  exact ⟨⟨ha.1, hb.1⟩, ⟨ha.2, hb.2⟩⟩

lemma braceFree_of_alpha (l : List Char) (h : ∀ c ∈ l, c.isAlpha = true) : braceFree l := by
  constructor
  · intro hmem
    exact absurd (h _ hmem) (by decide)
  · intro hmem
    exact absurd (h _ hmem) (by decide)

lemma rowGet_eq_some_mem (row : Record) (k v : String) (h : rowGet row k = some v) :
    ∃ p ∈ row, p.2 = v := by
  unfold rowGet at h
  cases hf : List.find? (fun p => p.1 == k) row with
  | none => rw [hf] at h; cases h
  | some p =>
    rw [hf] at h
    exact ⟨p, List.mem_of_find?_eq_some hf, by simpa using h⟩

lemma scan_ok_of_braceFree (row : Record) (l : List Char) (h : braceFree l) :
    pyFormat row l = .ok l := by
  unfold pyFormat
  induction l with
  | nil => rfl
  | cons c rest ih =>
    obtain ⟨hc1, hc2, hrest⟩ := braceFree_cons c rest h
    simp [scanGo, hc1, hc2, ih hrest, Except.map]

lemma scan_lit_append (row : Record) (t : List Char) :
    ∀ s : List Char, braceFree s →
      scanGo row .normal (s ++ t) = (scanGo row .normal t).map (fun u => s ++ u) := by
  intro s
  induction s with
  | nil =>
    intro _
    simp only [List.nil_append]
    cases scanGo row .normal t <;> rfl
  | cons c rest ih =>
    intro h
    obtain ⟨hc1, hc2, hrest⟩ := braceFree_cons c rest h
    rw [List.cons_append]
    rw [show scanGo row .normal (c :: (rest ++ t))
        = (scanGo row .normal (rest ++ t)).map (fun u => c :: u) from by
      simp [scanGo, hc1, hc2]]
    rw [ih hrest]
    cases scanGo row .normal t <;> rfl

lemma scan_field_name (row : Record) :
    ∀ (cs : List Char), braceFree cs → ∀ (acc t : List Char),
      scanGo row (.field acc) (cs ++ '}' :: t) =
        match rowGet row (String.mk (acc ++ cs)) with
        | none => .error (.missingField (String.mk (acc ++ cs)))
        | some v => (scanGo row .normal t).map (fun u => v.data ++ u) := by
  intro cs
  induction cs with
  | nil =>
    intro _ acc t
    simp [scanGo]
  | cons c rest ih =>
    intro h acc t
    obtain ⟨hc1, hc2, hrest⟩ := braceFree_cons c rest h
    rw [List.cons_append]
    rw [show scanGo row (.field acc) (c :: (rest ++ '}' :: t))
        = scanGo row (.field (acc ++ [c])) (rest ++ '}' :: t) from by
      simp [scanGo, hc2]]
    rw [ih hrest (acc ++ [c]) t]
    have hra : (acc ++ [c]) ++ rest = acc ++ c :: rest := by simp
    rw [hra]

lemma scan_field_append (row : Record) (n : String) (t : List Char)
    (hn : braceFree n.data) (hne : n ≠ "") :
    scanGo row .normal ('{' :: (n.data ++ '}' :: t)) =
      match rowGet row n with
      | none => .error (.missingField n)
      | some v => (scanGo row .normal t).map (fun u => v.data ++ u) := by
  cases hd : n.data with
  | nil =>
    exfalso
    apply hne
    rw [← string_mk_data n, hd]
  | cons c cs =>
    rw [hd] at hn
    obtain ⟨hc1, hc2, hcs⟩ := braceFree_cons c cs hn
    rw [show scanGo row .normal ('{' :: (c :: cs ++ '}' :: t))
        = scanGo row (.field [c]) (cs ++ '}' :: t) from by
      simp [scanGo, hc1, hc2]]
    rw [scan_field_name row cs hcs [c] t]
    have hmk : String.mk ([c] ++ cs) = n := by
      rw [show ([c] ++ cs : List Char) = c :: cs from rfl, ← hd, string_mk_data]
    rw [hmk]

lemma scan_segs_ok (row : Record) (segs : List Seg) :
    ∀ out : List Char, GoodSegs segs → segsRender row segs = some out →
      pyFormat row (segsToTemplate segs) = .ok out := by
  unfold pyFormat
  induction segs with
  | nil =>
    intro out _ hout
    simp only [segsRender, Option.some.injEq] at hout
    subst hout
    rfl
  | cons seg rest ih =>
    intro out hgood hout
    have hgrest : GoodSegs rest := fun s hs => hgood s (List.mem_cons_of_mem _ hs)
    cases seg with
    | lit s =>
      have hbf : braceFree s := hgood (.lit s) (List.mem_cons_self _ _)
      simp only [segsRender, Option.map_eq_some'] at hout
      rcases hout with ⟨u, hu, heq⟩
      subst heq
      rw [segsToTemplate, scan_lit_append row _ s hbf, ih u hgrest hu]
      rfl
    | field n =>
      obtain ⟨hne, halpha⟩ : GoodSeg (.field n) := hgood _ (List.mem_cons_self _ _)
      have hbf : braceFree n.data := braceFree_of_alpha _ halpha
      simp only [segsRender] at hout
      cases hv : rowGet row n with
      | none =>
        rw [hv] at hout
        cases hout
      | some v =>
        rw [hv] at hout
        simp only [Option.map_eq_some'] at hout
        rcases hout with ⟨u, hu, heq⟩
        subst heq
        rw [segsToTemplate, scan_field_append row n _ hbf hne, hv, ih u hgrest hu]
        rfl

lemma scan_segs_missing (row : Record) (segs : List Seg) :
    GoodSegs segs → segsRender row segs = none →
    ∃ m, rowGet row m = none ∧
      pyFormat row (segsToTemplate segs) = .error (.missingField m) := by
  unfold pyFormat
  induction segs with
  | nil =>
    intro _ hnone
    simp [segsRender] at hnone
  | cons seg rest ih =>
    intro hgood hnone
    have hgrest : GoodSegs rest := fun s hs => hgood s (List.mem_cons_of_mem _ hs)
    cases seg with
    | lit s =>
      have hbf : braceFree s := hgood (.lit s) (List.mem_cons_self _ _)
      simp only [segsRender, Option.map_eq_none'] at hnone
      rcases ih hgrest hnone with ⟨m, hm, hscan⟩
      refine ⟨m, hm, ?_⟩
      rw [segsToTemplate, scan_lit_append row _ s hbf, hscan]
      rfl
    | field n =>
      obtain ⟨hne, halpha⟩ : GoodSeg (.field n) := hgood _ (List.mem_cons_self _ _)
      have hbf : braceFree n.data := braceFree_of_alpha _ halpha
      simp only [segsRender] at hnone
      cases hv : rowGet row n with
      | none =>
        refine ⟨n, hv, ?_⟩
        rw [segsToTemplate, scan_field_append row n _ hbf hne, hv]
      | some v =>
        rw [hv] at hnone
        simp only [Option.map_eq_none'] at hnone
        rcases ih hgrest hnone with ⟨m, hm, hscan⟩
        refine ⟨m, hm, ?_⟩
        rw [segsToTemplate, scan_field_append row n _ hbf hne, hv, hscan]
        rfl

lemma segsRender_braceFree (row : Record) (segs : List Seg)
    (hvals : ∀ p ∈ row, braceFree p.2.data) :
    ∀ out : List Char, GoodSegs segs → segsRender row segs = some out →
      braceFree out := by
  induction segs with
  | nil =>
    intro out _ hout
    simp only [segsRender, Option.some.injEq] at hout
    subst hout
    exact ⟨by simp, by simp⟩
  | cons seg rest ih =>
    intro out hgood hout
    have hgrest : GoodSegs rest := fun s hs => hgood s (List.mem_cons_of_mem _ hs)
    cases seg with
    | lit s =>
      have hbf : braceFree s := hgood (.lit s) (List.mem_cons_self _ _)
      simp only [segsRender, Option.map_eq_some'] at hout
      rcases hout with ⟨u, hu, heq⟩
      subst heq
      exact braceFree_append s u hbf (ih u hgrest hu)
    | field n =>
      simp only [segsRender] at hout
      cases hv : rowGet row n with
      | none =>
        rw [hv] at hout
        cases hout
      | some v =>
        rw [hv] at hout
        simp only [Option.map_eq_some'] at hout
        rcases hout with ⟨u, hu, heq⟩
        subst heq
        rcases rowGet_eq_some_mem row n v hv with ⟨p, hp, hpv⟩
        exact braceFree_append v.data u (hpv ▸ hvals p hp) (ih u hgrest hu)

lemma segsRender_none_of_missing (row : Record) (segs : List Seg) (n : String)
    (hmiss : rowGet row n = none) :
    Seg.field n ∈ segs → segsRender row segs = none := by
  induction segs with
  | nil =>
    intro hmem
    exact absurd hmem (List.not_mem_nil _)
  | cons seg rest ih =>
    intro hmem
    rcases List.mem_cons.mp hmem with h | h
    · rw [← h]
      simp [segsRender, hmiss]
    · cases seg with
      | lit s => simp [segsRender, ih h]
      | field m =>
        cases hv : rowGet row m with
        | none => simp [segsRender, hv]
        | some v => simp [segsRender, hv, ih h]

lemma segsRender_isSome_of_present (row : Record) (segs : List Seg) :
    (∀ n, Seg.field n ∈ segs → (rowGet row n).isSome = true) →
    (segsRender row segs).isSome = true := by
  induction segs with
  | nil =>
    intro _
    rfl
  | cons seg rest ih =>
    intro h
    have hrest : ∀ n, Seg.field n ∈ rest → (rowGet row n).isSome = true :=
      fun n hn => h n (List.mem_cons_of_mem _ hn)
    rcases Option.isSome_iff_exists.mp (ih hrest) with ⟨u, hu⟩
    cases seg with
    | lit s => simp [segsRender, hu]
    | field n =>
      have hsome := h n (List.mem_cons_self _ _)
      rcases Option.isSome_iff_exists.mp hsome with ⟨v, hv⟩
      simp [segsRender, hv, hu]

/-- Claim C7 (amended): rendering is pure and single-pass; for a template of
brace-free literal chunks and simple alphabetic field names, over a record
whose referenced values contain no brace characters, the output is exactly
the literals with each field replaced by its value, contains no placeholder
syntax (no brace characters at all), and re-rendering the output is a
no-op. -/
theorem render_no_retemplating (row : Record) (segs : List Seg) (out : List Char)
    (hgood : GoodSegs segs)
    (hvals : ∀ p ∈ row, braceFree p.2.data)
    (hout : segsRender row segs = some out) :
    pyFormat row (segsToTemplate segs) = .ok out ∧
    braceFree out ∧
    pyFormat row out = .ok out := by
  have h2 := segsRender_braceFree row segs hvals out hgood hout
  exact ⟨scan_segs_ok row segs out hgood hout, h2, scan_ok_of_braceFree row out h2⟩

theorem render_no_retemplating_witness :
    (GoodSegs [Seg.lit "Hi ".data, Seg.field "name"] ∧
      (∀ p ∈ ([("name", "Bob")] : Record), braceFree p.2.data) ∧
      segsRender [("name", "Bob")] [Seg.lit "Hi ".data, Seg.field "name"]
        = some "Hi Bob".data) ∧
    (pyFormat [("name", "Bob")] (segsToTemplate [Seg.lit "Hi ".data, Seg.field "name"])
        = .ok "Hi Bob".data ∧
      braceFree "Hi Bob".data ∧
      pyFormat [("name", "Bob")] "Hi Bob".data = .ok "Hi Bob".data) :=
  ⟨⟨by decide, by decide, by decide⟩,
    render_no_retemplating [("name", "Bob")] [Seg.lit "Hi ".data, Seg.field "name"]
      "Hi Bob".data (by decide) (by decide) (by decide)⟩

/-- Claim C7 counterexample: rendering the template over a record whose
field value is itself placeholder text yields output that does contain
placeholder syntax, and re-rendering that output is not a no-op: it is
re-scanned and raises a KeyError for the absent field b. -/
theorem render_not_idempotent_cx :
    pyFormat [("a", "{b}")] ("{a}".data) = .ok ("{b}".data) ∧
    '{' ∈ ("{b}".data) ∧
    pyFormat [("a", "{b}")] ("{b}".data) = .error (.missingField "b") ∧
    pyFormat [("a", "{b}")] ("{b}".data) ≠ .ok ("{b}".data) := by
  refine ⟨?_, ?_, ?_, ?_⟩ <;> decide

/-- Claim C6: for a record missing a field referenced by the body template
or by the subject template, rendering inside send_initial_email raises a
KeyError naming an absent field, the function returns a non-sent outcome
with zero transport send calls made (no partial message is sent for the
row), and the Phase 1 loop continues with the remaining rows exactly as if
the row were absent, so the campaign is not aborted. -/
theorem missing_field_render (subjSegs htmlSegs : List Seg) (row : Record)
    (hgoodH : GoodSegs htmlSegs) (hgoodS : GoodSegs subjSegs)
    (hmiss : (∃ n, Seg.field n ∈ htmlSegs ∧ rowGet row n = none) ∨
      ((∀ n, Seg.field n ∈ htmlSegs → (rowGet row n).isSome = true) ∧
        ∃ n, Seg.field n ∈ subjSegs ∧ rowGet row n = none)) :
    ∃ m, rowGet row m = none ∧
      (∀ transport : Option SendReceipt,
        send_initial_email transport (segsToTemplate subjSegs) (segsToTemplate htmlSegs) row
          = (SendOutcome.renderFailed (RenderError.missingField m), 0)) ∧
      ∀ (tr : Nat → Option SendReceipt) (i : Nat) (rest : List Record),
        phase1Aux tr (segsToTemplate subjSegs) (segsToTemplate htmlSegs) i (row :: rest)
          = phase1Aux tr (segsToTemplate subjSegs) (segsToTemplate htmlSegs) (i + 1) rest := by
  have hsend : ∃ m, rowGet row m = none ∧
      ∀ transport : Option SendReceipt,
        send_initial_email transport (segsToTemplate subjSegs) (segsToTemplate htmlSegs) row
          = (SendOutcome.renderFailed (RenderError.missingField m), 0) := by
    rcases hmiss with ⟨n, hn, hmiss⟩ | ⟨hall, n, hn, hmiss⟩
    · have hnone := segsRender_none_of_missing row htmlSegs n hmiss hn
      rcases scan_segs_missing row htmlSegs hgoodH hnone with ⟨m, hm, hscan⟩
      exact ⟨m, hm, fun transport => by simp [send_initial_email, hscan]⟩
    · have hsome := segsRender_isSome_of_present row htmlSegs hall
      rcases Option.isSome_iff_exists.mp hsome with ⟨out, hout⟩
      have hok := scan_segs_ok row htmlSegs out hgoodH hout
      have hnone := segsRender_none_of_missing row subjSegs n hmiss hn
      rcases scan_segs_missing row subjSegs hgoodS hnone with ⟨m, hm, hscan⟩
      exact ⟨m, hm, fun transport => by simp [send_initial_email, hok, hscan]⟩
  rcases hsend with ⟨m, hm, hsend⟩
  refine ⟨m, hm, hsend, ?_⟩
  intro tr i rest
  cases hg : rowGet row "email" with
  | none => simp [phase1Aux, hg]
  | some email =>
    by_cases he : email = ""
    · simp [phase1Aux, hg, he]
    · simp [phase1Aux, hg, he, hsend (tr i)]

theorem missing_field_render_witness :
    (GoodSegs [Seg.field "name"] ∧ GoodSegs ([] : List Seg) ∧
      ((∃ n, Seg.field n ∈ [Seg.field "name"] ∧
          rowGet [("email", "a@b.c")] n = none) ∨
        ((∀ n, Seg.field n ∈ [Seg.field "name"] →
            (rowGet [("email", "a@b.c")] n).isSome = true) ∧
          ∃ n, Seg.field n ∈ ([] : List Seg) ∧
            rowGet [("email", "a@b.c")] n = none))) ∧
    (∃ m, rowGet [("email", "a@b.c")] m = none ∧
      (∀ transport : Option SendReceipt,
        send_initial_email transport (segsToTemplate ([] : List Seg))
            (segsToTemplate [Seg.field "name"]) [("email", "a@b.c")]
          = (SendOutcome.renderFailed (RenderError.missingField m), 0)) ∧
      ∀ (tr : Nat → Option SendReceipt) (i : Nat) (rest : List Record),
        phase1Aux tr (segsToTemplate ([] : List Seg)) (segsToTemplate [Seg.field "name"])
            i ([("email", "a@b.c")] :: rest)
          = phase1Aux tr (segsToTemplate ([] : List Seg)) (segsToTemplate [Seg.field "name"])
            (i + 1) rest) :=
  ⟨⟨by decide, by decide, Or.inl ⟨"name", by decide, by decide⟩⟩,
    missing_field_render ([] : List Seg) [Seg.field "name"] [("email", "a@b.c")]
      (by decide) (by decide) (Or.inl ⟨"name", by decide, by decide⟩)⟩

theorem retry_exhausted_logged_sent_witness :
    (itemW ∈ [itemW] ∧
      (∀ j, j < 5 →
        truthyMessageId ((fun _ _ => (none : Option (List Header))) itemW.temp_id j) = none)) ∧
    ((get_message_id_with_retry
        ((fun _ _ => (none : Option (List Header))) itemW.temp_id)).result = "" ∧
      (get_message_id_with_retry
        ((fun _ _ => (none : Option (List Header))) itemW.temp_id)).warned = true ∧
      ((itemW.row_index,
        { Timestamp := "ts", Status := "Sent", Subject := itemW.subject,
          ThreadID := itemW.thread_id, MessageID := "" }) : Nat × LogEntry) ∈
        phase2_update_log "ts" (fun _ _ => none) [itemW]) :=
  ⟨⟨by decide, by decide⟩,
    retry_exhausted_logged_sent (fun _ _ => none) "ts" itemW [itemW] (by decide) (by decide)⟩
